import Mathlib

set_option autoImplicit false

/-!
Shallow embedding of the gbi-match-maker matching core:
`data_store.py`, `data_store_new.py` and the target-universities step of
`handlers.py`.

Python dict values (`Dict[str, Any]` profiles) are modelled by the `Val`
inductive; per-user sets (`Dict[int, Set[int]]`) by association lists of
lists; the relational tables by row lists inside a `DB` structure.  The
surrogate primary key of the `users` table is identified with the unique
`telegram_id` column (the mapping is injective, so this loses nothing).
Every operation that touches the database takes a `dbUp : Bool` flag: the
source wraps each database block in `try/except` and logs the exception,
so `dbUp = false` models the whole block raising and being swallowed,
`dbUp = true` models it completing.  `random.shuffle` only permutes the
candidate list in place, and all claims about `get_potential_matches`
are membership claims, so the embedding returns the pre-shuffle list.
-/

/-- A Python value stored in a profile dict. -/
inductive Val where
  | s (v : String)
  | n (v : Int)
  | b (v : Bool)
  | ls (v : List String)
deriving Repr, DecidableEq

/-- A user profile: a Python `Dict[str, Any]` as an association list. -/
abbrev PData := List (String × Val)

/-- Lookup in an association list (Python `dict.get(k)` / `k in d`). -/
def alookup {α β : Type} [DecidableEq α] : List (α × β) → α → Option β
  | [], _ => none
  | (k, v) :: d, k' => if k = k' then some v else alookup d k'

/-- `d[k] = v` on an association list: overwrite the first binding or append. -/
def assocSet {α β : Type} [DecidableEq α] : List (α × β) → α → β → List (α × β)
  | [], k, v => [(k, v)]
  | (k', w) :: d, k, v => if k' = k then (k, v) :: d else (k', w) :: assocSet d k v

/-- Python truthiness of an optional dict value (`if not d.get(k)`). -/
def truthy : Option Val → Bool
  | none => false
  | some (.s v) => v ≠ ""
  | some (.n v) => v ≠ 0
  | some (.b v) => v
  | some (.ls v) => ¬ v.isEmpty

/-- `d.get(k, [])` for a key holding a list of strings. Non-list values never
occur at the list-valued keys, so they fall to the default. -/
def pgetList (p : PData) (k : String) : List String :=
  match alookup p k with
  | some (.ls v) => v
  | _ => []

/-- `d.get(k, dflt)` for a string-valued key. -/
def pgetS (p : PData) (k : String) (dflt : String) : String :=
  match alookup p k with
  | some (.s v) => v
  | _ => dflt

/-- `d.get(k, dflt)` for an int-valued key. -/
def pgetN (p : PData) (k : String) (dflt : Int) : Int :=
  match alookup p k with
  | some (.n v) => v
  | _ => dflt

/-- A per-user set store, e.g. `likes: Dict[int, Set[int]]`. -/
abbrev SetDict := List (Nat × List Nat)

/-- `d.get(k, set())`. -/
def dictGet (d : SetDict) (k : Nat) : List Nat := (alookup d k).getD []

/-- Python `set.add`: no duplicate is ever introduced. -/
def setAdd (s : List Nat) (v : Nat) : List Nat := if v ∈ s then s else s ++ [v]

/-- `if k not in d: d[k] = set()` followed by `d[k].add(v)`. -/
def dictAdd : SetDict → Nat → Nat → SetDict
  | [], k, v => [(k, [v])]
  | (k', s) :: d, k, v =>
      if k' = k then (k', setAdd s v) :: d else (k', s) :: dictAdd d k v

/-- `if k in d and v in d[k]: d[k].remove(v)`. -/
def dictRemove (d : SetDict) (k v : Nat) : SetDict :=
  d.map fun p => if p.1 = k then (p.1, p.2.filter (fun x => x ≠ v)) else p

/-- A row of the `users` table (fields written by `save_user_profile`);
the key (telegram id) is kept outside, in the association list. -/
structure DbUser where
  name : String
  age : Int
  gender : String
  university : String
  bio : String
  hobbies : String
  relationship_preference : String
  profile_pic_url : String
  profile_pic : String
deriving Repr, DecidableEq

/-- A row of the `likes` table. -/
structure LikeRow where
  sender : Nat
  receiver : Nat
  is_match : Bool
deriving Repr, DecidableEq

/-- A row of the `secret_crushes` table. -/
structure CrushRow where
  crusher : Nat
  crushee : Option Nat
  crush_name : Option String
  social_media_account : Option String
  crush_photo : Option String
  is_mutual : Bool
deriving Repr, DecidableEq

/-- The durable store: the relational tables the module mirrors into. -/
structure DB where
  users : List (Nat × DbUser)
  target_universities : List (Nat × String)
  like_rows : List LikeRow
  crush_rows : List CrushRow
  block_rows : List (Nat × Nat)
deriving Repr, DecidableEq

/-- The module-level state of `data_store.py`: the in-memory dicts plus
the database they are mirrored to. -/
structure Store where
  user_profiles : List (Nat × PData)
  matches_ : SetDict
  likes : SetDict
  blocks : SetDict
  secret_crushes : SetDict
  db : DB
deriving Repr, DecidableEq

/-- `db.session.query(User).filter_by(telegram_id=uid).first() is not None`. -/
def dbHasUser (db : DB) (uid : Nat) : Bool := (alookup db.users uid).isSome

/-- `query(Like).filter_by(sender_id=s, receiver_id=r).first() is not None`. -/
def rowsLikeExists (rows : List LikeRow) (s r : Nat) : Bool :=
  rows.any fun x => decide (x.sender = s ∧ x.receiver = r)

/-- `query(SecretCrush).filter_by(crusher_id=cr, crushee_id=ce).first() is not None`. -/
def crushRowExists (rows : List CrushRow) (cr ce : Nat) : Bool :=
  rows.any fun x => decide (x.crusher = cr ∧ x.crushee = some ce)

/-- `query(Block).filter_by(blocker_id=a, blocked_id=b).first() is not None`. -/
def blockRowExists (rows : List (Nat × Nat)) (a b : Nat) : Bool :=
  rows.any fun x => decide (x.1 = a ∧ x.2 = b)

/-- Set `is_match = True` on the first row matching the ordered pair
(the ORM mutates the single object returned by `.first()`). -/
def setMatchTrueFirst : List LikeRow → Nat → Nat → List LikeRow
  | [], _, _ => []
  | x :: rows, s, r =>
      if x.sender = s ∧ x.receiver = r then { x with is_match := true } :: rows
      else x :: setMatchTrueFirst rows s r

/-- Set `is_mutual = True` on the first crush row matching the ordered pair. -/
def setCrushMutualFirst : List CrushRow → Nat → Nat → List CrushRow
  | [], _, _ => []
  | x :: rows, cr, ce =>
      if x.crusher = cr ∧ x.crushee = some ce then { x with is_mutual := true } :: rows
      else x :: setCrushMutualFirst rows cr ce

/-- The target-university rows of one user, in table order. -/
def dbTargets (db : DB) (uid : Nat) : List String :=
  (db.target_universities.filter fun r => decide (r.1 = uid)).map (fun r => r.2)

namespace DataStore

/-- The profile dict `get_user_profile` rebuilds from a `users` row on a
memory miss (`data_store.py`, lines 141 to 158). -/
def dbLoadProfile (db : DB) (uid : Nat) : Option PData :=
  match alookup db.users uid with
  | none => none
  | some u => some
      [("name", .s u.name), ("age", .n u.age), ("gender", .s u.gender),
       ("university", .s u.university), ("bio", .s u.bio),
       ("hobbies", .s u.hobbies),
       ("relationship_preference", .s u.relationship_preference),
       ("profile_pic_url", .s u.profile_pic_url),
       ("profile_pic", .s u.profile_pic),
       ("profile_complete", .b true),
       ("target_universities", .ls (dbTargets db uid)),
       ("username", .s "")]

/-- `data_store.get_user_profile`: memory first; on a miss, read through
from the database and populate the in-memory cache. -/
def get_user_profile (st : Store) (uid : Nat) (dbUp : Bool) : Option PData × Store :=
  match alookup st.user_profiles uid with
  | some p => (some p, st)
  | none =>
      if dbUp then
        match dbLoadProfile st.db uid with
        | some p => (some p, { st with user_profiles := assocSet st.user_profiles uid p })
        | none => (none, st)
      else (none, st)

/-- `data_store.save_user_profile`: in-memory write first, then a
best-effort database write whose failure is caught and logged. -/
def save_user_profile (st : Store) (user_id : Nat) (profile_data : PData) (dbUp : Bool) : Store :=
  let st1 : Store := { st with user_profiles := assocSet st.user_profiles user_id profile_data }
  if profile_data.isEmpty then st1
  else if !dbUp then st1
  else
    match alookup st1.db.users user_id with
    | none =>
        let newUser : DbUser :=
          { name := pgetS profile_data "name" ""
            age := pgetN profile_data "age" 18
            gender := pgetS profile_data "gender" ""
            university := pgetS profile_data "university" ""
            bio := pgetS profile_data "bio" ""
            hobbies := pgetS profile_data "hobbies" ""
            relationship_preference := pgetS profile_data "relationship_preference" ""
            profile_pic_url := pgetS profile_data "profile_pic_url" ""
            profile_pic := pgetS profile_data "profile_pic" "" }
        let db1 : DB := { st1.db with users := assocSet st1.db.users user_id newUser }
        let db2 : DB :=
          if (alookup profile_data "target_universities").isSome then
            { db1 with target_universities :=
                db1.target_universities ++
                  (pgetList profile_data "target_universities").map (fun u => (user_id, u)) }
          else db1
        { st1 with db := db2 }
    | some du =>
        let du2 : DbUser :=
          { name := pgetS profile_data "name" du.name
            age := pgetN profile_data "age" du.age
            gender := pgetS profile_data "gender" du.gender
            university := pgetS profile_data "university" du.university
            bio := pgetS profile_data "bio" du.bio
            hobbies := pgetS profile_data "hobbies" du.hobbies
            relationship_preference := pgetS profile_data "relationship_preference" du.relationship_preference
            profile_pic_url := pgetS profile_data "profile_pic_url" du.profile_pic_url
            profile_pic :=
              if (alookup profile_data "profile_pic").isSome then
                pgetS profile_data "profile_pic" du.profile_pic
              else du.profile_pic }
        let db1 : DB := { st1.db with users := assocSet st1.db.users user_id du2 }
        let db2 : DB :=
          if (alookup profile_data "target_universities").isSome then
            { db1 with target_universities :=
                (db1.target_universities.filter fun r => decide (r.1 ≠ user_id)) ++
                  (pgetList profile_data "target_universities").map (fun u => (user_id, u)) }
          else db1
        { st1 with db := db2 }

/-- The ids of users whose block set contains `uid`
(the reverse scan over `blocks.items()`). -/
def reverseBlockers (blocks : SetDict) (uid : Nat) : List Nat :=
  (blocks.filter fun p => decide (uid ∈ p.2)).map (fun p => p.1)

/-- The gender `continue` condition of the candidate scan. -/
def genderBlocked (ug og : Option Val) : Bool :=
  (decide (ug = some (.s "male")) && !(decide (og = some (.s "female")))) ||
  (decide (ug = some (.s "female")) && !(decide (og = some (.s "male"))))

/-- `"All" in target_universities or other_university in target_universities`.
`other_university` may be absent (`None`), which is never a list member. -/
def uniAccepted (targets : List String) (ouni : Option Val) : Bool :=
  decide ("All" ∈ targets) ||
    (match ouni with
     | some (.s u) => decide (u ∈ targets)
     | _ => false)

/-- The loop body of `get_potential_matches`: keep `q` unless one of the
`continue` conditions fires.  The exclusion set is the union (here: list
concatenation) of already-liked, blocked, reverse-blockers and matches. -/
def candidateOk (p : PData) (st1 : Store) (uid : Nat) (q : Nat × PData) : Bool :=
  !(decide (q.1 = uid)) &&
  truthy (alookup q.2 "profile_complete") &&
  !(decide (q.1 ∈ dictGet st1.likes uid ++ dictGet st1.blocks uid ++
      reverseBlockers st1.blocks uid ++ dictGet st1.matches_ uid)) &&
  !(genderBlocked (alookup p "gender") (alookup q.2 "gender")) &&
  uniAccepted (pgetList p "target_universities") (alookup q.2 "university")

/-- The part of `get_potential_matches` after the `get_user_profile` call. -/
def gpmBody (op : Option PData) (st1 : Store) (uid : Nat) : List Nat :=
  match op with
  | none => []
  | some p =>
      if !truthy (alookup p "profile_complete") then []
      else ((st1.user_profiles.filter (candidateOk p st1 uid)).map (fun q => q.1))

/-- `data_store.get_potential_matches` up to the final in-place
`random.shuffle` (the claims are permutation-invariant). -/
def get_potential_matches (st : Store) (uid : Nat) (dbUp : Bool) : List Nat :=
  gpmBody (get_user_profile st uid dbUp).1 (get_user_profile st uid dbUp).2 uid

/-- `like.is_match = True; reverse_like.is_match = True`: flag the freshly
inserted row (the only one with this ordered pair) and the first reverse row. -/
def pmMarkRows (rows : List LikeRow) (user_id other_id : Nat) : List LikeRow :=
  setMatchTrueFirst (setMatchTrueFirst rows user_id other_id) other_id user_id

/-- The `try` block of `process_match_decision` (lines 373 to 429): returns
`some outcome` when the block returns early with a database-detected match,
`none` when control falls through to the in-memory mutual check.  The
reverse-like query runs after `session.add(like)`, so with autoflush it sees
the pending insert. -/
def pmDbStep (st : Store) (user_id other_id : Nat) (dbUp : Bool) : Option String × Store :=
  if dbUp && dbHasUser st.db user_id && dbHasUser st.db other_id then
    if rowsLikeExists st.db.like_rows user_id other_id then (none, st)
    else
      if rowsLikeExists (st.db.like_rows ++ [LikeRow.mk user_id other_id false]) other_id user_id then
        (some "match",
         { st with
             db := { st.db with like_rows := pmMarkRows (st.db.like_rows ++ [LikeRow.mk user_id other_id false]) user_id other_id }
             matches_ := dictAdd (dictAdd st.matches_ user_id other_id) other_id user_id })
      else
        (none, { st with db := { st.db with like_rows := st.db.like_rows ++ [LikeRow.mk user_id other_id false] } })
  else (none, st)

/-- `data_store.process_match_decision`. -/
def process_match_decision (st : Store) (user_id other_id : Nat) (is_like : Bool) (dbUp : Bool) : String × Store :=
  if !is_like then ("passed", st)
  else
    let st1 : Store := { st with likes := dictAdd st.likes user_id other_id }
    match pmDbStep st1 user_id other_id dbUp with
    | (some outcome, st2) => (outcome, st2)
    | (none, st2) =>
        if user_id ∈ dictGet st2.likes other_id then
          ("match",
           { st2 with matches_ := dictAdd (dictAdd st2.matches_ user_id other_id) other_id user_id })
        else ("liked", st2)

/-- `data_store.add_secret_crush`. -/
def add_secret_crush (st : Store) (user_id : Nat) (crush_id : Option Nat)
    (crush_name : Option String) (social_media_account : Option String)
    (crush_photo : Option String) (dbUp : Bool) : String × Store :=
  match crush_id with
  | some cid =>
      if cid ∈ dictGet st.secret_crushes user_id then ("already_added", st)
      else
        let st1 : Store := { st with secret_crushes := dictAdd st.secret_crushes user_id cid }
        let st2 : Store :=
          if dbUp && dbHasUser st1.db user_id && dbHasUser st1.db cid then
            if crushRowExists st1.db.crush_rows user_id cid then st1
            else
              let is_mutual := crushRowExists st1.db.crush_rows cid user_id
              let rows := st1.db.crush_rows ++ [CrushRow.mk user_id (some cid) none none none is_mutual]
              let rows2 := if is_mutual then setCrushMutualFirst rows cid user_id else rows
              { st1 with db := { st1.db with crush_rows := rows2 } }
          else st1
        ("added", st2)
  | none =>
      if crush_name.getD "" = "" then ("error", st)
      else
        let st2 : Store :=
          if dbUp && dbHasUser st.db user_id then
            { st with db := { st.db with crush_rows :=
                st.db.crush_rows ++
                  [CrushRow.mk user_id none crush_name social_media_account crush_photo false] } }
          else st
        ("added_external", st2)

/-- `data_store.block_user_from_db`. -/
def block_user_from_db (st : Store) (user_id blocked_id : Nat) (dbUp : Bool) : Store :=
  let st1 : Store :=
    { st with
        blocks := dictAdd st.blocks user_id blocked_id
        matches_ := dictRemove (dictRemove st.matches_ user_id blocked_id) blocked_id user_id }
  if dbUp && dbHasUser st1.db user_id && dbHasUser st1.db blocked_id then
    let brows :=
      if blockRowExists st1.db.block_rows user_id blocked_id then st1.db.block_rows
      else st1.db.block_rows ++ [(user_id, blocked_id)]
    let lrows := st1.db.like_rows.map fun r =>
      if (r.sender = user_id ∧ r.receiver = blocked_id) ∨
         (r.sender = blocked_id ∧ r.receiver = user_id) then { r with is_match := false }
      else r
    { st1 with db := { st1.db with block_rows := brows, like_rows := lrows } }
  else st1

/-- `data_store.unmatch_user_from_db`. -/
def unmatch_user_from_db (st : Store) (user_id unmatched_id : Nat) (dbUp : Bool) : Store :=
  let st1 : Store :=
    { st with
        matches_ := dictRemove (dictRemove st.matches_ user_id unmatched_id) unmatched_id user_id }
  if dbUp && dbHasUser st1.db user_id && dbHasUser st1.db unmatched_id then
    let lrows := st1.db.like_rows.map fun r =>
      if (r.sender = user_id ∧ r.receiver = unmatched_id) ∨
         (r.sender = unmatched_id ∧ r.receiver = user_id) then { r with is_match := false }
      else r
    { st1 with db := { st1.db with like_rows := lrows } }
  else st1

end DataStore

namespace DataStoreNew

/-- `data_store_new.get_user_profile`: memory only, no read-through. -/
def get_user_profile (st : Store) (uid : Nat) : Option PData :=
  alookup st.user_profiles uid

/-- The loop body of `data_store_new.get_potential_matches`: same skip
conditions as `data_store.py` plus the reverse university check
(`user_uni_ok`: the requester's university must be accepted by the
candidate's target list). -/
def candidateOkNew (p : PData) (st : Store) (uid : Nat) (q : Nat × PData) : Bool :=
  !(decide (q.1 = uid)) &&
  truthy (alookup q.2 "profile_complete") &&
  !(decide (q.1 ∈ dictGet st.likes uid)) &&
  !(decide (q.1 ∈ dictGet st.blocks uid)) &&
  !(decide (q.1 ∈ DataStore.reverseBlockers st.blocks uid)) &&
  !(decide (q.1 ∈ dictGet st.matches_ uid)) &&
  !(DataStore.genderBlocked (alookup p "gender") (alookup q.2 "gender")) &&
  (DataStore.uniAccepted (pgetList q.2 "target_universities") (alookup p "university") &&
   DataStore.uniAccepted (pgetList p "target_universities") (alookup q.2 "university"))

/-- `data_store_new.get_potential_matches` up to the final shuffle.  Unlike
`data_store.py` it also requires the requester's own university to be
accepted by the candidate's target list. -/
def get_potential_matches (st : Store) (uid : Nat) : List Nat :=
  match get_user_profile st uid with
  | none => []
  | some p =>
      if !truthy (alookup p "profile_complete") then []
      else ((st.user_profiles.filter (candidateOkNew p st uid)).map (fun q => q.1))

end DataStoreNew

namespace Handlers

/-- `constants.UNIVERSITY_LIST`. -/
def UNIVERSITY_LIST : List String :=
  ["Addis Ababa University",
   "Adama Science and Technology University",
   "Bahir Dar University",
   "Debre Berhan University",
   "Dire Dawa University",
   "Ethiopian Civil Service University",
   "Gondar University",
   "Hawassa University",
   "Haramaya University",
   "Jimma University",
   "Mekelle University",
   "Woldia University",
   "Wollo University",
   "Arba Minch University",
   "Axum University",
   "Dilla University",
   "Mizan-Tepi University",
   "Wolkite University",
   "Wolaita Sodo University",
   "Wachemo University"]

/-- Conversation state `TARGET_UNIVERSITIES` (`handlers.py`: `range(10)` index 5). -/
def TARGET_UNIVERSITIES : Nat := 5

/-- Conversation state `HOBBIES` (`handlers.py`: `range(10)` index 6). -/
def HOBBIES : Nat := 6

/-- The callback received by `handle_target_universities`: the callback data
is one of `target_all`, `target_done` or `target_<idx>`. -/
inductive TUQuery where
  | target_all
  | target_done
  | target (idx : Nat)
deriving Repr, DecidableEq

/-- `handlers.handle_target_universities`, as its effect on the user's
profile dict together with the conversation state it returns.  The
`save_user_profile` persistence call and the keyboard re-rendering are
outside the selection logic modelled here; callback indices are built from
`enumerate(UNIVERSITY_LIST)` so they are always in range. -/
def handle_target_universities (user_profile : PData) (query : TUQuery) : PData × Nat :=
  match query with
  | .target_all =>
      (assocSet user_profile "target_universities" (.ls ["All"]), HOBBIES)
  | .target_done =>
      if !truthy (alookup user_profile "target_universities") then
        (user_profile, TARGET_UNIVERSITIES)
      else (user_profile, HOBBIES)
  | .target idx =>
      let selected := UNIVERSITY_LIST.getD idx ""
      let cur := pgetList user_profile "target_universities"
      let cur2 := if "All" ∈ cur then [] else cur
      let cur3 := if selected ∉ cur2 then cur2 ++ [selected] else cur2
      (assocSet user_profile "target_universities" (.ls cur3), TARGET_UNIVERSITIES)

end Handlers

/-! Concrete states used by counterexamples and witnesses. -/

/-- An empty database. -/
def emptyDB : DB := { users := [], target_universities := [], like_rows := [], crush_rows := [], block_rows := [] }

/-- An empty store. -/
def emptyStore : Store :=
  { user_profiles := [], matches_ := [], likes := [], blocks := [], secret_crushes := [], db := emptyDB }

/-- A database user row with placeholder attributes. -/
def someDbUser : DbUser :=
  { name := "x", age := 20, gender := "male", university := "Addis Ababa University",
    bio := "", hobbies := "", relationship_preference := "", profile_pic_url := "", profile_pic := "" }

/-- Complete male profile at Addis Ababa University targeting Bahir Dar. -/
def profAlice : PData :=
  [("name", .s "A"), ("age", .n 21), ("gender", .s "male"),
   ("university", .s "Addis Ababa University"),
   ("profile_complete", .b true),
   ("target_universities", .ls ["Bahir Dar University"])]

/-- Complete female profile at Bahir Dar University targeting Gondar only:
she does not target Addis Ababa. -/
def profBeth : PData :=
  [("name", .s "B"), ("age", .n 21), ("gender", .s "female"),
   ("university", .s "Bahir Dar University"),
   ("profile_complete", .b true),
   ("target_universities", .ls ["Gondar University"])]

/-- Store for the C5 counterexample: user 1 targets user 2's university,
but user 2 does not target user 1's. -/
def stC5 : Store :=
  { emptyStore with user_profiles := [(1, profAlice), (2, profBeth)] }

/-- Complete female profile at Bahir Dar University targeting Addis Ababa:
a fully mutual preference pair with `profAlice`. -/
def profBeth2 : PData :=
  [("name", .s "B"), ("age", .n 21), ("gender", .s "female"),
   ("university", .s "Bahir Dar University"),
   ("profile_complete", .b true),
   ("target_universities", .ls ["Addis Ababa University"])]

/-- Store where both candidate filters agree on a nonempty result. -/
def stW5 : Store :=
  { emptyStore with user_profiles := [(1, profAlice), (2, profBeth2)] }

/-- Profile with one selected target university, for the C6 counterexample. -/
def profOneTarget : PData :=
  [("target_universities", .ls ["Addis Ababa University"])]

/-- Profile with an empty target-university working set. -/
def profNoTarget : PData :=
  [("target_universities", .ls [])]

/-- Store for the C8 counterexample: user 1 is registered and already has
an identical external crush row in the database. -/
def stC8 : Store :=
  { emptyStore with
      db := { emptyDB with
        users := [(1, someDbUser)],
        crush_rows := [CrushRow.mk 1 none (some "Alice") none none false] } }

/-- Store for the C4 witness: users 1 and 2 are matched in memory and their
like rows carry the match flag in the database. -/
def stMatched : Store :=
  { emptyStore with
      matches_ := [(1, [2]), (2, [1])],
      likes := [(1, [2]), (2, [1])],
      db := { emptyDB with
        users := [(1, someDbUser), (2, someDbUser)],
        like_rows := [LikeRow.mk 1 2 true, LikeRow.mk 2 1 true] } }

/-- Store for the C8 witness: user 1 already has 3 in the in-memory crush
set, while 2 has a database crush row on 1 awaiting reciprocation. -/
def stCrush : Store :=
  { emptyStore with
      secret_crushes := [(1, [3])],
      db := { emptyDB with
        users := [(1, someDbUser), (2, someDbUser), (3, someDbUser)],
        crush_rows := [CrushRow.mk 2 (some 1) none none none false] } }

/-- Number of like rows carrying the given ordered sender/receiver pair. -/
def likeCount (rows : List LikeRow) (s r : Nat) : Nat :=
  (rows.filter fun x => decide (x.sender = s ∧ x.receiver = r)).length

/-- Every like row in the database is mirrored by an in-memory like edge.
`load_data_from_db` establishes this on startup and every decision inserts
the in-memory edge before the row, so it holds in reachable states. -/
def likesCoherent (st : Store) : Prop :=
  ∀ r ∈ st.db.like_rows, r.receiver ∈ dictGet st.likes r.sender

/-! Association-list and set lemmas. -/

theorem alookup_assocSet_self {α β : Type} [DecidableEq α] (d : List (α × β)) (k : α) (v : β) :
    alookup (assocSet d k v) k = some v := by
  induction d with
  | nil => simp [assocSet, alookup]
  | cons hd tl ih =>
      obtain ⟨k', w⟩ := hd
      by_cases h : k' = k
      · simp [assocSet, h, alookup]
      · simp [assocSet, h, alookup, ih]

theorem mem_setAdd_self (s : List Nat) (v : Nat) : v ∈ setAdd s v := by
  by_cases h : v ∈ s <;> simp [setAdd, h]

theorem mem_setAdd_of_mem {s : List Nat} {x : Nat} (v : Nat) (h : x ∈ s) : x ∈ setAdd s v := by
  by_cases hv : v ∈ s <;> simp [setAdd, hv, h]

theorem mem_setAdd_iff {s : List Nat} {x v : Nat} : x ∈ setAdd s v ↔ x ∈ s ∨ x = v := by
  unfold setAdd
  by_cases hv : v ∈ s
  · simp only [if_pos hv]
    constructor
    · exact Or.inl
    · rintro (h | rfl)
      · exact h
      · exact hv
  · simp [if_neg hv]

theorem count_setAdd_of_le {s : List Nat} {v : Nat} (h : s.count v ≤ 1) :
    (setAdd s v).count v = 1 := by
  unfold setAdd
  by_cases hv : v ∈ s
  · have h1 : 1 ≤ s.count v := List.one_le_count_iff.mpr hv
    simp [if_pos hv]
    omega
  · have h0 : s.count v = 0 := List.count_eq_zero.mpr hv
    simp [if_neg hv, List.count_append, h0]

theorem dictGet_nil (k : Nat) : dictGet [] k = [] := rfl

theorem alookup_cons {α β : Type} [DecidableEq α] (a : α) (s : β) (tl : List (α × β)) (k : α) :
    alookup ((a, s) :: tl) k = if a = k then some s else alookup tl k := rfl

theorem dictGet_cons (a : Nat) (s : List Nat) (tl : SetDict) (k : Nat) :
    dictGet ((a, s) :: tl) k = if a = k then s else dictGet tl k := by
  unfold dictGet
  rw [alookup_cons]
  split <;> rfl

theorem dictGet_dictAdd_self (d : SetDict) (k v : Nat) :
    dictGet (dictAdd d k v) k = setAdd (dictGet d k) v := by
  induction d with
  | nil => simp [dictAdd, dictGet_cons, dictGet_nil, setAdd]
  | cons hd tl ih =>
      obtain ⟨a, s⟩ := hd
      by_cases ha : a = k
      · subst ha; simp [dictAdd, dictGet_cons]
      · simp [dictAdd, ha, dictGet_cons, ih]

theorem dictGet_dictAdd_ne (d : SetDict) {k k' : Nat} (v : Nat) (h : k' ≠ k) :
    dictGet (dictAdd d k v) k' = dictGet d k' := by
  induction d with
  | nil => simp [dictAdd, dictGet_cons, dictGet_nil, Ne.symm h]
  | cons hd tl ih =>
      obtain ⟨a, s⟩ := hd
      by_cases ha : a = k
      · subst ha; simp [dictAdd, dictGet_cons, Ne.symm h]
      · simp [dictAdd, ha, dictGet_cons, ih]

theorem mem_dictGet_dictAdd_self (d : SetDict) (k v : Nat) : v ∈ dictGet (dictAdd d k v) k := by
  rw [dictGet_dictAdd_self]; exact mem_setAdd_self _ _

theorem mem_dictGet_dictAdd_of_mem {d : SetDict} {k' x : Nat} (k v : Nat) (h : x ∈ dictGet d k') :
    x ∈ dictGet (dictAdd d k v) k' := by
  by_cases hk : k' = k
  · subst hk; rw [dictGet_dictAdd_self]; exact mem_setAdd_of_mem v h
  · rw [dictGet_dictAdd_ne d v hk]; exact h

theorem dictRemove_cons (a : Nat) (s : List Nat) (tl : SetDict) (k v : Nat) :
    dictRemove ((a, s) :: tl) k v =
      (if a = k then (a, s.filter (fun x => x ≠ v)) else (a, s)) :: dictRemove tl k v := by
  by_cases ha : a = k <;> (unfold dictRemove; simp [List.map_cons, ha])

theorem dictGet_dictRemove (d : SetDict) (k v k' : Nat) :
    dictGet (dictRemove d k v) k' =
      if k' = k then (dictGet d k').filter (fun x => x ≠ v) else dictGet d k' := by
  induction d with
  | nil =>
      unfold dictRemove
      simp only [List.map_nil, dictGet_nil]
      split <;> rfl
  | cons hd tl ih =>
      obtain ⟨a, s⟩ := hd
      rw [dictRemove_cons]
      by_cases ha : a = k
      · subst ha
        by_cases ha' : a = k'
        · subst ha'; simp [dictGet_cons]
        · simp [dictGet_cons, ha', if_neg ha', Ne.symm ha', ih]
      · by_cases ha' : a = k'
        · subst ha'
          simp [dictGet_cons, if_neg ha, ih, fun hh : a = k => ha hh]
        · simp [dictGet_cons, ha, ha', ih]

theorem not_mem_dictGet_dictRemove (d : SetDict) (k v : Nat) :
    v ∉ dictGet (dictRemove d k v) k := by
  rw [dictGet_dictRemove]
  simp [List.mem_filter]

theorem mem_dictGet_dictRemove_of_mem {d : SetDict} {k' x : Nat} (k v : Nat)
    (h : x ∈ dictGet (dictRemove d k v) k') : x ∈ dictGet d k' := by
  rw [dictGet_dictRemove] at h
  split at h
  · exact (List.mem_filter.mp h).1
  · exact h

/-! Lemmas about like rows. -/

theorem rowsLikeExists_iff (rows : List LikeRow) (s r : Nat) :
    rowsLikeExists rows s r = true ↔ ∃ x ∈ rows, x.sender = s ∧ x.receiver = r := by
  simp [rowsLikeExists, List.any_eq_true]

theorem likeCount_nil (s r : Nat) : likeCount [] s r = 0 := rfl

theorem likeCount_cons (x : LikeRow) (rows : List LikeRow) (s r : Nat) :
    likeCount (x :: rows) s r =
      (if x.sender = s ∧ x.receiver = r then 1 else 0) + likeCount rows s r := by
  by_cases h : x.sender = s ∧ x.receiver = r
  · simp [likeCount, List.filter_cons, h, Nat.add_comm]
  · simp [likeCount, List.filter_cons, h]

theorem likeCount_append (rows rows2 : List LikeRow) (s r : Nat) :
    likeCount (rows ++ rows2) s r = likeCount rows s r + likeCount rows2 s r := by
  simp [likeCount, List.filter_append]

theorem likeCount_eq_zero (rows : List LikeRow) (s r : Nat) :
    rowsLikeExists rows s r = false → likeCount rows s r = 0 := by
  induction rows with
  | nil => intro _; rfl
  | cons x rows ih =>
      intro h
      simp only [rowsLikeExists, List.any_cons, Bool.or_eq_false_iff] at h
      rw [likeCount_cons, if_neg (of_decide_eq_false h.1), ih h.2]

theorem likeCount_setMatchTrueFirst (rows : List LikeRow) (s0 r0 s r : Nat) :
    likeCount (setMatchTrueFirst rows s0 r0) s r = likeCount rows s r := by
  induction rows with
  | nil => rfl
  | cons x rows ih =>
      unfold setMatchTrueFirst
      split_ifs with hx
      · rw [likeCount_cons, likeCount_cons]
      · rw [likeCount_cons, likeCount_cons, ih]

theorem mem_setMatchTrueFirst (rows : List LikeRow) (s0 r0 : Nat) {x : LikeRow}
    (h : x ∈ setMatchTrueFirst rows s0 r0) :
    ∃ y ∈ rows, y.sender = x.sender ∧ y.receiver = x.receiver := by
  induction rows with
  | nil => cases h
  | cons y rows ih =>
      unfold setMatchTrueFirst at h
      split_ifs at h with hy
      · rcases List.mem_cons.mp h with hh | hh
        · exact ⟨y, List.mem_cons_self _ _, by simp [hh], by simp [hh]⟩
        · exact ⟨x, List.mem_cons_of_mem _ hh, rfl, rfl⟩
      · rcases List.mem_cons.mp h with hh | hh
        · exact ⟨y, List.mem_cons_self _ _, by simp [hh], by simp [hh]⟩
        · obtain ⟨z, hz, h1, h2⟩ := ih hh
          exact ⟨z, List.mem_cons_of_mem _ hz, h1, h2⟩

/-! Lemmas about `process_match_decision`. -/

theorem pmDbStep_likes (st : Store) (u o : Nat) (d : Bool) :
    ((DataStore.pmDbStep st u o d).2).likes = st.likes := by
  unfold DataStore.pmDbStep
  split_ifs <;> rfl

theorem pmDbStep_cases (st : Store) (u o : Nat) (d : Bool) :
    (DataStore.pmDbStep st u o d).1 = none ∨
      ((DataStore.pmDbStep st u o d).1 = some "match" ∧
       ((DataStore.pmDbStep st u o d).2).matches_ = dictAdd (dictAdd st.matches_ u o) o u ∧
       rowsLikeExists (st.db.like_rows ++ [LikeRow.mk u o false]) o u = true ∧
       rowsLikeExists st.db.like_rows u o = false) := by
  unfold DataStore.pmDbStep
  split_ifs with h1 h2 h3
  · exact Or.inl rfl
  · exact Or.inr ⟨rfl, rfl, h3, by simpa using h2⟩
  · exact Or.inl rfl
  · exact Or.inl rfl

theorem pmDbStep_likeCount (st : Store) (u o : Nat) (d : Bool) :
    likeCount ((DataStore.pmDbStep st u o d).2).db.like_rows u o ≤
      max (likeCount st.db.like_rows u o) 1 := by
  unfold DataStore.pmDbStep
  split_ifs with h1 h2 h3
  · exact Nat.le_max_left _ _
  · have h0 : likeCount st.db.like_rows u o = 0 :=
      likeCount_eq_zero _ _ _ (by simpa using h2)
    simp [DataStore.pmMarkRows, likeCount_setMatchTrueFirst, likeCount_append, h0, likeCount_cons, likeCount_nil]
  · have h0 : likeCount st.db.like_rows u o = 0 :=
      likeCount_eq_zero _ _ _ (by simpa using h2)
    simp [likeCount_append, h0, likeCount_cons, likeCount_nil]
  · exact Nat.le_max_left _ _

theorem pm_likes (st : Store) (u o : Nat) (d : Bool) :
    ((DataStore.process_match_decision st u o true d).2).likes = dictAdd st.likes u o := by
  unfold DataStore.process_match_decision
  rcases h : DataStore.pmDbStep { st with likes := dictAdd st.likes u o } u o d with ⟨os, st2⟩
  have hl : st2.likes = dictAdd st.likes u o := by
    have hh := pmDbStep_likes { st with likes := dictAdd st.likes u o } u o d
    rw [h] at hh
    exact hh
  cases os with
  | some s => simp [h, hl]
  | none =>
      simp only [Bool.not_true, Bool.false_eq_true, if_false, h]
      split_ifs <;> simp [hl]

theorem pm_match_of_mem (st : Store) (u o : Nat) (d : Bool)
    (h : u ∈ dictGet (dictAdd st.likes u o) o) :
    (DataStore.process_match_decision st u o true d).1 = "match" ∧
    o ∈ dictGet ((DataStore.process_match_decision st u o true d).2).matches_ u ∧
    u ∈ dictGet ((DataStore.process_match_decision st u o true d).2).matches_ o := by
  rcases hdb : DataStore.pmDbStep { st with likes := dictAdd st.likes u o } u o d with ⟨os, st2⟩
  have hcases := pmDbStep_cases { st with likes := dictAdd st.likes u o } u o d
  rw [hdb] at hcases
  cases os with
  | some s =>
      rcases hcases with hnone | ⟨hm, hmm, _, _⟩
      · simp at hnone
      · have hs : s = "match" := by simpa using hm
        subst hs
        have hmm2 : st2.matches_ = dictAdd (dictAdd st.matches_ u o) o u := by simpa using hmm
        have hres : DataStore.process_match_decision st u o true d = ("match", st2) := by
          unfold DataStore.process_match_decision
          simp [hdb]
        rw [hres]
        refine ⟨rfl, ?_, ?_⟩
        · rw [hmm2]
          exact mem_dictGet_dictAdd_of_mem o u (mem_dictGet_dictAdd_self _ u o)
        · rw [hmm2]
          exact mem_dictGet_dictAdd_self _ o u
  | none =>
      have hlikes : st2.likes = dictAdd st.likes u o := by
        have hh := pmDbStep_likes { st with likes := dictAdd st.likes u o } u o d
        rw [hdb] at hh
        exact hh
      have hres : DataStore.process_match_decision st u o true d =
          ("match", { st2 with matches_ := dictAdd (dictAdd st2.matches_ u o) o u }) := by
        unfold DataStore.process_match_decision
        simp only [hdb, Bool.not_true, Bool.false_eq_true, if_false]
        rw [if_pos (by rw [hlikes]; exact h)]
      rw [hres]
      exact ⟨rfl, mem_dictGet_dictAdd_of_mem o u (mem_dictGet_dictAdd_self _ u o),
             mem_dictGet_dictAdd_self _ o u⟩

theorem pm_mem_of_match (st : Store) (u o : Nat) (d : Bool)
    (hcoh : likesCoherent st)
    (h : (DataStore.process_match_decision st u o true d).1 = "match") :
    u ∈ dictGet (dictAdd st.likes u o) o := by
  unfold DataStore.process_match_decision at h
  rcases hdb : DataStore.pmDbStep { st with likes := dictAdd st.likes u o } u o d with ⟨os, st2⟩
  simp only [hdb, Bool.not_true, Bool.false_eq_true, if_false] at h
  have hcases := pmDbStep_cases { st with likes := dictAdd st.likes u o } u o d
  rw [hdb] at hcases
  cases os with
  | some s =>
      rcases hcases with hnone | ⟨_, _, hrev, _⟩
      · simp at hnone
      · obtain ⟨x, hx, hxs, hxr⟩ := (rowsLikeExists_iff _ _ _).mp hrev
        rcases List.mem_append.mp hx with hold | hnew
        · have hc := hcoh x hold
          rw [hxs, hxr] at hc
          exact mem_dictGet_dictAdd_of_mem u o hc
        · have hx2 : x = LikeRow.mk u o false := by simpa using hnew
          rw [hx2] at hxs
          simp only [] at hxs
          subst hxs
          exact mem_dictGet_dictAdd_self _ _ _
  | none =>
      have h2 : (if u ∈ dictGet st2.likes o then
            ("match", { st2 with matches_ := dictAdd (dictAdd st2.matches_ u o) o u })
          else ("liked", st2)).1 = "match" := h
      by_cases hmem : u ∈ dictGet st2.likes o
      · have hlikes : st2.likes = dictAdd st.likes u o := by
          have hh := pmDbStep_likes { st with likes := dictAdd st.likes u o } u o d
          rw [hdb] at hh
          exact hh
        rw [hlikes] at hmem
        exact hmem
      · rw [if_neg hmem] at h2
        simp at h2

theorem pm_likeCount (st : Store) (u o : Nat) (d : Bool) :
    likeCount ((DataStore.process_match_decision st u o true d).2).db.like_rows u o ≤
      max (likeCount st.db.like_rows u o) 1 := by
  unfold DataStore.process_match_decision
  rcases hdb : DataStore.pmDbStep { st with likes := dictAdd st.likes u o } u o d with ⟨os, st2⟩
  have hc := pmDbStep_likeCount { st with likes := dictAdd st.likes u o } u o d
  rw [hdb] at hc
  cases os with
  | some s => simpa [hdb] using hc
  | none =>
      simp only [hdb, Bool.not_true, Bool.false_eq_true, if_false]
      split_ifs <;> simpa using hc

theorem pm_liked (st : Store) (u o : Nat) (d : Bool)
    (hne : u ≠ o) (hmem : u ∉ dictGet st.likes o)
    (hrow : rowsLikeExists st.db.like_rows o u = false) :
    (DataStore.process_match_decision st u o true d).1 = "liked" := by
  rcases hdb : DataStore.pmDbStep { st with likes := dictAdd st.likes u o } u o d with ⟨os, st2⟩
  have hcases := pmDbStep_cases { st with likes := dictAdd st.likes u o } u o d
  rw [hdb] at hcases
  cases os with
  | some s =>
      exfalso
      rcases hcases with hnone | ⟨_, _, hrev, _⟩
      · simp at hnone
      · obtain ⟨x, hx, hxs, hxr⟩ := (rowsLikeExists_iff _ _ _).mp hrev
        rcases List.mem_append.mp hx with hold | hnew
        · have hT : rowsLikeExists st.db.like_rows o u = true :=
            (rowsLikeExists_iff _ _ _).mpr ⟨x, hold, hxs, hxr⟩
          rw [hrow] at hT
          cases hT
        · have hx2 : x = LikeRow.mk u o false := by simpa using hnew
          rw [hx2] at hxs
          exact hne hxs
  | none =>
      have hlikes : st2.likes = dictAdd st.likes u o := by
        have hh := pmDbStep_likes { st with likes := dictAdd st.likes u o } u o d
        rw [hdb] at hh
        exact hh
      have hnm : u ∉ dictGet st2.likes o := by
        rw [hlikes, dictGet_dictAdd_ne st.likes o (Ne.symm hne)]
        exact hmem
      unfold DataStore.process_match_decision
      simp only [hdb, Bool.not_true, Bool.false_eq_true, if_false]
      rw [if_neg hnm]

/-- C1: Mutual-like detection.  For any two users A and B and any database
availability, after `process_match_decision(A, B, is_like=True)` a subsequent
`process_match_decision(B, A, is_like=True)` returns the matched outcome, and
afterwards A is in B's in-memory match set and B is in A's. -/
theorem C1_mutual_like_detection (st : Store) (A B : Nat) (d1 d2 : Bool) :
    (DataStore.process_match_decision
        ((DataStore.process_match_decision st A B true d1).2) B A true d2).1 = "match" ∧
    A ∈ dictGet ((DataStore.process_match_decision
        ((DataStore.process_match_decision st A B true d1).2) B A true d2).2).matches_ B ∧
    B ∈ dictGet ((DataStore.process_match_decision
        ((DataStore.process_match_decision st A B true d1).2) B A true d2).2).matches_ A := by
  have hmem : B ∈ dictGet
      (dictAdd ((DataStore.process_match_decision st A B true d1).2).likes B A) A := by
    rw [pm_likes st A B d1]
    exact mem_dictGet_dictAdd_of_mem B A (mem_dictGet_dictAdd_self st.likes A B)
  exact pm_match_of_mem ((DataStore.process_match_decision st A B true d1).2) B A d2 hmem

/-- C2: Like idempotence.  From any coherent, duplicate-free state, calling
`process_match_decision(A, B, like)` twice with no intervening decision leaves
exactly one in-memory like edge A to B, at most one A to B row in the likes
table, and a first call that returned the matched outcome cannot be followed
by a second call returning the liked outcome (it returns matched again). -/
theorem C2_like_idempotence (st : Store) (A B : Nat) (d1 d2 : Bool)
    (hcoh : likesCoherent st)
    (hrows : likeCount st.db.like_rows A B ≤ 1)
    (hmem : (dictGet st.likes A).count B ≤ 1) :
    (dictGet ((DataStore.process_match_decision
        ((DataStore.process_match_decision st A B true d1).2) A B true d2).2).likes A).count B = 1 ∧
    likeCount ((DataStore.process_match_decision
        ((DataStore.process_match_decision st A B true d1).2) A B true d2).2).db.like_rows A B ≤ 1 ∧
    ((DataStore.process_match_decision st A B true d1).1 = "match" →
      (DataStore.process_match_decision
        ((DataStore.process_match_decision st A B true d1).2) A B true d2).1 = "match") := by
  refine ⟨?_, ?_, ?_⟩
  · rw [pm_likes ((DataStore.process_match_decision st A B true d1).2) A B d2,
        dictGet_dictAdd_self, pm_likes st A B d1, dictGet_dictAdd_self]
    exact count_setAdd_of_le (le_of_eq (count_setAdd_of_le hmem))
  · have h2 := pm_likeCount ((DataStore.process_match_decision st A B true d1).2) A B d2
    have h1 := pm_likeCount st A B d1
    omega
  · intro h1
    have hmem1 : A ∈ dictGet (dictAdd st.likes A B) B := pm_mem_of_match st A B d1 hcoh h1
    have hmem2 : A ∈ dictGet
        (dictAdd ((DataStore.process_match_decision st A B true d1).2).likes A B) B := by
      rw [pm_likes st A B d1]
      exact mem_dictGet_dictAdd_of_mem A B hmem1
    exact (pm_match_of_mem ((DataStore.process_match_decision st A B true d1).2) A B d2 hmem2).1

/-- Witness for C2 at a concrete input: the empty store, users 1 and 2. -/
theorem C2_like_idempotence_witness :
    (dictGet ((DataStore.process_match_decision
        ((DataStore.process_match_decision emptyStore 1 2 true true).2) 1 2 true true).2).likes 1).count 2 = 1 ∧
    likeCount ((DataStore.process_match_decision
        ((DataStore.process_match_decision emptyStore 1 2 true true).2) 1 2 true true).2).db.like_rows 1 2 ≤ 1 ∧
    ((DataStore.process_match_decision emptyStore 1 2 true true).1 = "match" →
      (DataStore.process_match_decision
        ((DataStore.process_match_decision emptyStore 1 2 true true).2) 1 2 true true).1 = "match") :=
  C2_like_idempotence emptyStore 1 2 true true
    (by intro r hr; simp [emptyStore, emptyDB] at hr) (by decide) (by decide)

/-- C10: `process_match_decision` enforces no precondition on either
identity: for every pair (u, t) and any store, liking inserts t into u's
in-memory like set (profiles play no role), and when no reverse like exists
in memory or in the likes table (and u and t are distinct ids) the call
returns the liked outcome. -/
theorem C10_decide_no_profile_precondition (st : Store) (u t : Nat) (d : Bool) :
    t ∈ dictGet ((DataStore.process_match_decision st u t true d).2).likes u ∧
    (u ≠ t → u ∉ dictGet st.likes t → rowsLikeExists st.db.like_rows t u = false →
      (DataStore.process_match_decision st u t true d).1 = "liked") := by
  constructor
  · rw [pm_likes]
    exact mem_dictGet_dictAdd_self _ _ _
  · intro h1 h2 h3
    exact pm_liked st u t d h1 h2 h3

/-- Witness for C10 at a concrete input: the empty store (no profile exists
at all), users 1 and 2, database up. -/
theorem C10_decide_no_profile_precondition_witness :
    2 ∈ dictGet ((DataStore.process_match_decision emptyStore 1 2 true true).2).likes 1 ∧
    (DataStore.process_match_decision emptyStore 1 2 true true).1 = "liked" :=
  ⟨(C10_decide_no_profile_precondition emptyStore 1 2 true).1,
   (C10_decide_no_profile_precondition emptyStore 1 2 true).2
     (by decide) (by decide) (by decide)⟩

/-! Lemmas about the candidate filters. -/

theorem candidateOk_iff (p : PData) (st1 : Store) (uid a : Nat) (b : PData) :
    DataStore.candidateOk p st1 uid (a, b) = true ↔
      a ≠ uid ∧ truthy (alookup b "profile_complete") = true ∧
      a ∉ dictGet st1.likes uid ∧ a ∉ dictGet st1.blocks uid ∧
      a ∉ DataStore.reverseBlockers st1.blocks uid ∧ a ∉ dictGet st1.matches_ uid ∧
      DataStore.genderBlocked (alookup p "gender") (alookup b "gender") = false ∧
      DataStore.uniAccepted (pgetList p "target_universities") (alookup b "university") = true := by
  simp [DataStore.candidateOk, Bool.and_eq_true, Bool.not_eq_true', decide_eq_false_iff_not,
        List.mem_append, not_or, and_assoc]

theorem candidateOkNew_iff (p : PData) (st : Store) (uid a : Nat) (b : PData) :
    DataStoreNew.candidateOkNew p st uid (a, b) = true ↔
      a ≠ uid ∧ truthy (alookup b "profile_complete") = true ∧
      a ∉ dictGet st.likes uid ∧ a ∉ dictGet st.blocks uid ∧
      a ∉ DataStore.reverseBlockers st.blocks uid ∧ a ∉ dictGet st.matches_ uid ∧
      DataStore.genderBlocked (alookup p "gender") (alookup b "gender") = false ∧
      (DataStore.uniAccepted (pgetList b "target_universities") (alookup p "university") = true ∧
       DataStore.uniAccepted (pgetList p "target_universities") (alookup b "university") = true) := by
  simp [DataStoreNew.candidateOkNew, Bool.and_eq_true, Bool.not_eq_true', decide_eq_false_iff_not,
        not_or, and_assoc]

theorem gpm_sound (st : Store) (uid : Nat) (d : Bool) (oid : Nat)
    (h : oid ∈ DataStore.get_potential_matches st uid d) :
    ∃ p q, (DataStore.get_user_profile st uid d).1 = some p ∧
      truthy (alookup p "profile_complete") = true ∧
      (oid, q) ∈ ((DataStore.get_user_profile st uid d).2).user_profiles ∧
      DataStore.candidateOk p ((DataStore.get_user_profile st uid d).2) uid (oid, q) = true := by
  unfold DataStore.get_potential_matches at h
  rcases hg : DataStore.get_user_profile st uid d with ⟨op, st1⟩
  rw [hg] at h
  cases op with
  | none => cases h
  | some p =>
      have h2 : (if !truthy (alookup p "profile_complete") then []
          else ((st1.user_profiles.filter (DataStore.candidateOk p st1 uid)).map (fun q => q.1))) =
            DataStore.gpmBody (some p) st1 uid := rfl
      rw [← h2] at h
      by_cases hc : truthy (alookup p "profile_complete") = true
      · rw [if_neg (by simp [hc])] at h
        obtain ⟨q, hq, hq1⟩ := List.mem_map.mp h
        obtain ⟨a, b⟩ := q
        obtain ⟨hm, hpred⟩ := List.mem_filter.mp hq
        subst hq1
        exact ⟨p, b, rfl, hc, hm, hpred⟩
      · rw [if_pos (by simp [Bool.not_eq_true'] at hc ⊢; exact hc)] at h
        cases h

theorem gpm_complete (st : Store) (uid : Nat) (d : Bool) (oid : Nat)
    (p : PData) (q : PData)
    (hp : (DataStore.get_user_profile st uid d).1 = some p)
    (hc : truthy (alookup p "profile_complete") = true)
    (hm : (oid, q) ∈ ((DataStore.get_user_profile st uid d).2).user_profiles)
    (hok : DataStore.candidateOk p ((DataStore.get_user_profile st uid d).2) uid (oid, q) = true) :
    oid ∈ DataStore.get_potential_matches st uid d := by
  unfold DataStore.get_potential_matches
  rcases hg : DataStore.get_user_profile st uid d with ⟨op, st1⟩
  rw [hg] at hp hm hok
  simp only [] at hp hm hok
  subst hp
  show oid ∈ DataStore.gpmBody (some p) st1 uid
  have h2 : DataStore.gpmBody (some p) st1 uid =
      (if !truthy (alookup p "profile_complete") then []
       else ((st1.user_profiles.filter (DataStore.candidateOk p st1 uid)).map (fun q => q.1))) := rfl
  rw [h2, if_neg (by simp [hc])]
  exact List.mem_map.mpr ⟨(oid, q), List.mem_filter.mpr ⟨hm, hok⟩, rfl⟩

theorem gpmNew_sound (st : Store) (uid : Nat) (oid : Nat)
    (h : oid ∈ DataStoreNew.get_potential_matches st uid) :
    ∃ p q, DataStoreNew.get_user_profile st uid = some p ∧
      truthy (alookup p "profile_complete") = true ∧
      (oid, q) ∈ st.user_profiles ∧
      DataStoreNew.candidateOkNew p st uid (oid, q) = true := by
  unfold DataStoreNew.get_potential_matches at h
  rcases hg : DataStoreNew.get_user_profile st uid with _ | p
  · rw [hg] at h
    cases h
  · rw [hg] at h
    have h2 : (match some p with
        | none => ([] : List Nat)
        | some p =>
            if !truthy (alookup p "profile_complete") then []
            else ((st.user_profiles.filter (DataStoreNew.candidateOkNew p st uid)).map (fun q => q.1))) =
        (if !truthy (alookup p "profile_complete") then []
         else ((st.user_profiles.filter (DataStoreNew.candidateOkNew p st uid)).map (fun q => q.1))) := rfl
    rw [h2] at h
    by_cases hc : truthy (alookup p "profile_complete") = true
    · rw [if_neg (by simp [hc])] at h
      obtain ⟨q, hq, hq1⟩ := List.mem_map.mp h
      obtain ⟨a, b⟩ := q
      obtain ⟨hm, hpred⟩ := List.mem_filter.mp hq
      subst hq1
      exact ⟨p, b, rfl, hc, hm, hpred⟩
    · rw [if_pos (by simp [Bool.not_eq_true'] at hc ⊢; exact hc)] at h
      cases h

theorem genderBlocked_false_ne {og : Option Val} {g : String}
    (hbin : g = "male" ∨ g = "female")
    (h : DataStore.genderBlocked (some (Val.s g)) og = false) :
    og ≠ some (Val.s g) := by
  rcases hbin with rfl | rfl
  · simp [DataStore.genderBlocked] at h
    rw [h]
    simp
  · simp [DataStore.genderBlocked] at h
    rw [h]
    simp

/-- C3: Candidate filter exclusions.  `get_potential_matches` never returns
the requester's own id; and whenever the requester's recorded gender is one
of the two supported values, every returned candidate has a profile entry
whose gender differs from the requester's. -/
theorem C3_candidate_filter_exclusions (st : Store) (uid : Nat) (d : Bool) (oid : Nat)
    (h : oid ∈ DataStore.get_potential_matches st uid d) :
    oid ≠ uid ∧
    (∀ p g, (DataStore.get_user_profile st uid d).1 = some p →
      alookup p "gender" = some (Val.s g) → g = "male" ∨ g = "female" →
      ∃ q, (oid, q) ∈ ((DataStore.get_user_profile st uid d).2).user_profiles ∧
        alookup q "gender" ≠ alookup p "gender") := by
  obtain ⟨p, q, hp, hc, hm, hok⟩ := gpm_sound st uid d oid h
  have hiff := (candidateOk_iff p _ uid oid q).mp hok
  refine ⟨hiff.1, ?_⟩
  intro p' g hp' hg hbin
  have hpe : p' = p := by
    rw [hp] at hp'
    exact (Option.some.inj hp').symm
  subst hpe
  refine ⟨q, hm, ?_⟩
  have hgb := hiff.2.2.2.2.2.2.1
  rw [hg] at hgb ⊢
  exact genderBlocked_false_ne hbin hgb

/-- Witness for C3: in the concrete two-user store, user 2 is returned for
requester 1, is not the requester, and has the opposite gender. -/
theorem C3_candidate_filter_exclusions_witness :
    (2 : Nat) ≠ 1 ∧
    (∃ q, ((2 : Nat), q) ∈ ((DataStore.get_user_profile stC5 1 false).2).user_profiles ∧
      alookup q "gender" ≠ alookup profAlice "gender") :=
  ⟨(C3_candidate_filter_exclusions stC5 1 false 2 (by decide)).1,
   (C3_candidate_filter_exclusions stC5 1 false 2 (by decide)).2 profAlice "male"
     (by decide) (by decide) (Or.inl rfl)⟩

/-! Lemmas about `block_user_from_db` and `unmatch_user_from_db`. -/

theorem block_matches (st : Store) (A B : Nat) (d : Bool) :
    (DataStore.block_user_from_db st A B d).matches_ =
      dictRemove (dictRemove st.matches_ A B) B A := by
  unfold DataStore.block_user_from_db
  dsimp only
  split_ifs <;> rfl

theorem mem_markUnmatched {l : List LikeRow} {A B : Nat} {r : LikeRow}
    (hr : r ∈ l.map (fun r =>
        if (r.sender = A ∧ r.receiver = B) ∨ (r.sender = B ∧ r.receiver = A)
        then { r with is_match := false } else r))
    (hpair : (r.sender = A ∧ r.receiver = B) ∨ (r.sender = B ∧ r.receiver = A)) :
    r.is_match = false := by
  obtain ⟨r0, hr0, heq⟩ := List.mem_map.mp hr
  by_cases hc : (r0.sender = A ∧ r0.receiver = B) ∨ (r0.sender = B ∧ r0.receiver = A)
  · rw [if_pos hc] at heq
    rw [← heq]
  · rw [if_neg hc] at heq
    rw [← heq] at hpair
    exact absurd hpair hc

/-- C4: Blocking severs an existing match.  After `block_user_from_db(A, B)`
neither user is in the other's in-memory match set, and when the database
write goes through (both users registered, database up) every like row
between the pair has its match flag cleared. -/
theorem C4_block_severs_match (st : Store) (A B : Nat) (d : Bool) :
    B ∉ dictGet ((DataStore.block_user_from_db st A B d).matches_) A ∧
    A ∉ dictGet ((DataStore.block_user_from_db st A B d).matches_) B ∧
    (d = true → dbHasUser st.db A = true → dbHasUser st.db B = true →
      ∀ r ∈ (DataStore.block_user_from_db st A B d).db.like_rows,
        (r.sender = A ∧ r.receiver = B) ∨ (r.sender = B ∧ r.receiver = A) →
        r.is_match = false) := by
  refine ⟨?_, ?_, ?_⟩
  · rw [block_matches]
    intro hmem
    exact absurd (mem_dictGet_dictRemove_of_mem B A hmem)
      (not_mem_dictGet_dictRemove st.matches_ A B)
  · rw [block_matches]
    exact not_mem_dictGet_dictRemove (dictRemove st.matches_ A B) B A
  · intro hd hA hB r hr hpair
    have hcond : (d && dbHasUser st.db A && dbHasUser st.db B) = true := by
      rw [hd, hA, hB]
      rfl
    have hrows : (DataStore.block_user_from_db st A B d).db.like_rows =
        st.db.like_rows.map (fun r =>
          if (r.sender = A ∧ r.receiver = B) ∨ (r.sender = B ∧ r.receiver = A)
          then { r with is_match := false } else r) := by
      unfold DataStore.block_user_from_db
      dsimp only
      rw [if_pos hcond]
    rw [hrows] at hr
    exact mem_markUnmatched hr hpair

/-- Witness for C4: blocking in the concrete matched store clears both
in-memory match sets and both match flags. -/
theorem C4_block_severs_match_witness :
    (2 : Nat) ∉ dictGet ((DataStore.block_user_from_db stMatched 1 2 true).matches_) 1 ∧
    (1 : Nat) ∉ dictGet ((DataStore.block_user_from_db stMatched 1 2 true).matches_) 2 ∧
    ∀ r ∈ (DataStore.block_user_from_db stMatched 1 2 true).db.like_rows,
      (r.sender = 1 ∧ r.receiver = 2) ∨ (r.sender = 2 ∧ r.receiver = 1) →
      r.is_match = false := by
  have h := C4_block_severs_match stMatched 1 2 true
  exact ⟨h.1, h.2.1, h.2.2 rfl (by decide) (by decide)⟩

theorem unmatch_matches (st : Store) (A B : Nat) (d : Bool) :
    (DataStore.unmatch_user_from_db st A B d).matches_ =
      dictRemove (dictRemove st.matches_ A B) B A := by
  unfold DataStore.unmatch_user_from_db
  dsimp only
  split_ifs <;> rfl

theorem unmatch_blocks (st : Store) (A B : Nat) (d : Bool) :
    (DataStore.unmatch_user_from_db st A B d).blocks = st.blocks := by
  unfold DataStore.unmatch_user_from_db
  dsimp only
  split_ifs <;> rfl

theorem unmatch_likes (st : Store) (A B : Nat) (d : Bool) :
    (DataStore.unmatch_user_from_db st A B d).likes = st.likes := by
  unfold DataStore.unmatch_user_from_db
  dsimp only
  split_ifs <;> rfl

theorem gup_snd_likes (st : Store) (uid : Nat) (d : Bool) :
    ((DataStore.get_user_profile st uid d).2).likes = st.likes := by
  unfold DataStore.get_user_profile
  split
  · rfl
  · split_ifs
    · split <;> rfl
    · rfl

/-- C7: Unmatch clears match membership only.  `unmatch_user_from_db(A, B)`
removes each user from the other's in-memory match set, creates no block
edge, leaves the like sets untouched, and a surviving like edge A to B keeps
B out of A's candidate list afterwards. -/
theorem C7_unmatch_clears_match_only (st : Store) (A B : Nat) (d d2 : Bool) :
    B ∉ dictGet ((DataStore.unmatch_user_from_db st A B d).matches_) A ∧
    A ∉ dictGet ((DataStore.unmatch_user_from_db st A B d).matches_) B ∧
    (DataStore.unmatch_user_from_db st A B d).blocks = st.blocks ∧
    (DataStore.unmatch_user_from_db st A B d).likes = st.likes ∧
    (B ∈ dictGet st.likes A →
      B ∉ DataStore.get_potential_matches (DataStore.unmatch_user_from_db st A B d) A d2) := by
  refine ⟨?_, ?_, unmatch_blocks st A B d, unmatch_likes st A B d, ?_⟩
  · rw [unmatch_matches]
    intro hmem
    exact absurd (mem_dictGet_dictRemove_of_mem B A hmem)
      (not_mem_dictGet_dictRemove st.matches_ A B)
  · rw [unmatch_matches]
    exact not_mem_dictGet_dictRemove (dictRemove st.matches_ A B) B A
  · intro hlike hmem
    obtain ⟨p, q, hp, hc, hm, hok⟩ := gpm_sound _ A d2 B hmem
    have hnot := ((candidateOk_iff p _ A B q).mp hok).2.2.1
    apply hnot
    rw [gup_snd_likes, unmatch_likes]
    exact hlike

/-- Witness for C7 in the concrete matched store with a surviving like edge. -/
theorem C7_unmatch_clears_match_only_witness :
    (2 : Nat) ∉ dictGet ((DataStore.unmatch_user_from_db stMatched 1 2 true).matches_) 1 ∧
    (1 : Nat) ∉ dictGet ((DataStore.unmatch_user_from_db stMatched 1 2 true).matches_) 2 ∧
    (DataStore.unmatch_user_from_db stMatched 1 2 true).blocks = stMatched.blocks ∧
    (DataStore.unmatch_user_from_db stMatched 1 2 true).likes = stMatched.likes ∧
    (2 : Nat) ∉ DataStore.get_potential_matches
      (DataStore.unmatch_user_from_db stMatched 1 2 true) 1 true := by
  have h := C7_unmatch_clears_match_only stMatched 1 2 true true
  exact ⟨h.1, h.2.1, h.2.2.1, h.2.2.2.1, h.2.2.2.2 (by decide)⟩

/-- Counterexample to C5: with identical store state, user 1 (targeting
user 2's university while user 2 does not target user 1's) receives
candidate 2 from `data_store.get_potential_matches` but not from
`data_store_new.get_potential_matches` - the two filters are not
equivalent. -/
theorem C5_counterexample :
    2 ∈ DataStore.get_potential_matches stC5 1 false ∧
    2 ∉ DataStoreNew.get_potential_matches stC5 1 := by decide

/-- C5 amended: `data_store_new.py` additionally requires the requester's
own university to be accepted by the candidate's target list, so on
identical states its candidate set is contained in `data_store.py`'s (the
two agree exactly when that reverse preference also holds for every
candidate). -/
theorem C5_new_filter_subset (st : Store) (uid : Nat) (d : Bool) (oid : Nat)
    (h : oid ∈ DataStoreNew.get_potential_matches st uid) :
    oid ∈ DataStore.get_potential_matches st uid d := by
  obtain ⟨p, q, hp, hc, hm, hok⟩ := gpmNew_sound st uid oid h
  have hgup : DataStore.get_user_profile st uid d = (some p, st) := by
    unfold DataStore.get_user_profile
    unfold DataStoreNew.get_user_profile at hp
    rw [hp]
  apply gpm_complete st uid d oid p q
  · rw [hgup]
  · exact hc
  · rw [hgup]
    exact hm
  · rw [hgup]
    rw [candidateOk_iff]
    have hn := (candidateOkNew_iff p st uid oid q).mp hok
    exact ⟨hn.1, hn.2.1, hn.2.2.1, hn.2.2.2.1, hn.2.2.2.2.1, hn.2.2.2.2.2.1,
           hn.2.2.2.2.2.2.1, hn.2.2.2.2.2.2.2.2⟩

/-- Witness for the amended C5: where the preferences are mutual, a
candidate of the new filter is also one of the old filter. -/
theorem C5_new_filter_subset_witness :
    2 ∈ DataStore.get_potential_matches stW5 1 false :=
  C5_new_filter_subset stW5 1 false 2 (by decide)

/-- Counterexample to C6: selecting a university that is already in the
working set does not remove it - the handler only appends when absent, so
the set is unchanged (selection is an idempotent add, not a toggle). -/
theorem C6_counterexample :
    pgetList ((Handlers.handle_target_universities profOneTarget (.target 0)).1)
      "target_universities" = ["Addis Ababa University"] ∧
    (Handlers.handle_target_universities profOneTarget (.target 0)).2 =
      Handlers.TARGET_UNIVERSITIES := by decide

/-- C6 amended: re-selecting a university already in the working set leaves
the set unchanged (and stays in the TargetUniversities state); the done
signal advances to Hobbies exactly when the working set is non-empty and
re-prompts otherwise; choosing the All sentinel sets the set to `["All"]`
and advances immediately. -/
theorem C6_target_universities_amended (p : PData) (l : List String) (idx : Nat)
    (hl : alookup p "target_universities" = some (Val.ls l)) :
    (Handlers.UNIVERSITY_LIST.getD idx "" ∈ l → "All" ∉ l →
       pgetList ((Handlers.handle_target_universities p (.target idx)).1)
         "target_universities" = l ∧
       (Handlers.handle_target_universities p (.target idx)).2 =
         Handlers.TARGET_UNIVERSITIES) ∧
    (l = [] → Handlers.handle_target_universities p .target_done =
       (p, Handlers.TARGET_UNIVERSITIES)) ∧
    (l ≠ [] → Handlers.handle_target_universities p .target_done =
       (p, Handlers.HOBBIES)) ∧
    (pgetList ((Handlers.handle_target_universities p .target_all).1)
       "target_universities" = ["All"] ∧
     (Handlers.handle_target_universities p .target_all).2 = Handlers.HOBBIES) := by
  have hcur : pgetList p "target_universities" = l := by
    unfold pgetList
    rw [hl]
  refine ⟨?_, ?_, ?_, ?_⟩
  · intro hmem hall
    unfold Handlers.handle_target_universities
    dsimp only
    rw [hcur, if_neg hall, if_neg (not_not_intro hmem)]
    refine ⟨?_, rfl⟩
    unfold pgetList
    rw [alookup_assocSet_self]
  · intro hle
    subst hle
    have ht : truthy (alookup p "target_universities") = false := by
      rw [hl]
      rfl
    unfold Handlers.handle_target_universities
    rw [ht]
    rfl
  · intro hne
    obtain ⟨a, l', rfl⟩ : ∃ a l', l = a :: l' := by
      cases l with
      | nil => exact absurd rfl hne
      | cons a l' => exact ⟨a, l', rfl⟩
    have ht : truthy (alookup p "target_universities") = true := by
      rw [hl]
      rfl
    unfold Handlers.handle_target_universities
    rw [ht]
    rfl
  · refine ⟨?_, rfl⟩
    unfold Handlers.handle_target_universities pgetList
    dsimp only
    rw [alookup_assocSet_self]

/-- Witness for the amended C6 at concrete profiles. -/
theorem C6_target_universities_amended_witness :
    (pgetList ((Handlers.handle_target_universities profOneTarget (.target 0)).1)
        "target_universities" = ["Addis Ababa University"] ∧
     (Handlers.handle_target_universities profOneTarget (.target 0)).2 =
        Handlers.TARGET_UNIVERSITIES) ∧
    Handlers.handle_target_universities profNoTarget .target_done =
      (profNoTarget, Handlers.TARGET_UNIVERSITIES) ∧
    Handlers.handle_target_universities profOneTarget .target_done =
      (profOneTarget, Handlers.HOBBIES) ∧
    (pgetList ((Handlers.handle_target_universities profOneTarget .target_all).1)
        "target_universities" = ["All"] ∧
     (Handlers.handle_target_universities profOneTarget .target_all).2 =
        Handlers.HOBBIES) := by
  have h1 := C6_target_universities_amended profOneTarget ["Addis Ababa University"] 0 rfl
  have h2 := C6_target_universities_amended profNoTarget [] 0 rfl
  exact ⟨h1.1 (by decide) (by decide), h2.2.1 rfl, h1.2.2.1 (by decide), h1.2.2.2⟩

/-! Lemmas about `add_secret_crush`. -/

theorem mem_setCrushMutualFirst_of_not {rows : List CrushRow} {cr ce : Nat} {x : CrushRow}
    (hx : x ∈ rows) (hnp : ¬(x.crusher = cr ∧ x.crushee = some ce)) :
    x ∈ setCrushMutualFirst rows cr ce := by
  induction rows with
  | nil => cases hx
  | cons y rows ih =>
      unfold setCrushMutualFirst
      split_ifs with hy
      · rcases List.mem_cons.mp hx with rfl | hxs
        · exact absurd hy hnp
        · exact List.mem_cons_of_mem _ hxs
      · rcases List.mem_cons.mp hx with rfl | hxs
        · exact List.mem_cons_self _ _
        · exact List.mem_cons_of_mem _ (ih hxs)

theorem setCrushMutualFirst_marks {rows : List CrushRow} {cr ce : Nat}
    (h : crushRowExists rows cr ce = true) :
    ∃ r ∈ setCrushMutualFirst rows cr ce,
      r.crusher = cr ∧ r.crushee = some ce ∧ r.is_mutual = true := by
  induction rows with
  | nil => simp [crushRowExists] at h
  | cons y rows ih =>
      unfold setCrushMutualFirst
      split_ifs with hy
      · exact ⟨{ y with is_mutual := true }, List.mem_cons_self _ _,
               by simpa using hy.1, by simpa using hy.2, rfl⟩
      · have h' : crushRowExists rows cr ce = true := by
          simp only [crushRowExists, List.any_cons, Bool.or_eq_true] at h
          rcases h with h | h
          · exact absurd (of_decide_eq_true h) hy
          · simpa [crushRowExists] using h
        obtain ⟨r, hr, hprop⟩ := ih h'
        exact ⟨r, List.mem_cons_of_mem _ hr, hprop⟩

theorem crushRowExists_ne {rows : List CrushRow} {u cid : Nat}
    (hfwd : crushRowExists rows u cid = false)
    (hrev : crushRowExists rows cid u = true) : u ≠ cid := by
  intro he
  subst he
  rw [hfwd] at hrev
  cases hrev

/-- Counterexample to C8: an identical external crush row already exists for
user 1, yet `add_secret_crush` returns `added_external` (not
`already_added`) and inserts a duplicate row - duplicate detection does not
cover external crushes. -/
theorem C8_counterexample :
    (DataStore.add_secret_crush stC8 1 none (some "Alice") none none true).1 = "added_external" ∧
    ((DataStore.add_secret_crush stC8 1 none (some "Alice") none none true).2).db.crush_rows.length = 2 := by
  decide

/-- C8 amended: for a registered target, `add_secret_crush` returns
`already_added` exactly when the crusher-to-crushee edge is already in the
in-memory crush set (leaving the store unchanged); otherwise it inserts the
edge, returns `added`, and, when the database write goes through and the
reverse row exists, both directions carry the mutual flag.  External targets
with a name are always inserted and return `added_external` with no
duplicate detection. -/
theorem C8_add_secret_crush_amended (st : Store) (u cid : Nat)
    (nm sm ph : Option String) (d : Bool) :
    (cid ∈ dictGet st.secret_crushes u →
       DataStore.add_secret_crush st u (some cid) nm sm ph d = ("already_added", st)) ∧
    (cid ∉ dictGet st.secret_crushes u →
       (DataStore.add_secret_crush st u (some cid) nm sm ph d).1 = "added" ∧
       cid ∈ dictGet ((DataStore.add_secret_crush st u (some cid) nm sm ph d).2).secret_crushes u ∧
       (d = true → dbHasUser st.db u = true → dbHasUser st.db cid = true →
        crushRowExists st.db.crush_rows u cid = false →
        crushRowExists st.db.crush_rows cid u = true →
        (∃ r ∈ ((DataStore.add_secret_crush st u (some cid) nm sm ph d).2).db.crush_rows,
           r.crusher = u ∧ r.crushee = some cid ∧ r.is_mutual = true) ∧
        (∃ r ∈ ((DataStore.add_secret_crush st u (some cid) nm sm ph d).2).db.crush_rows,
           r.crusher = cid ∧ r.crushee = some u ∧ r.is_mutual = true))) ∧
    (nm.getD "" ≠ "" →
       (DataStore.add_secret_crush st u none nm sm ph d).1 = "added_external" ∧
       (d = true → dbHasUser st.db u = true →
        ((DataStore.add_secret_crush st u none nm sm ph d).2).db.crush_rows =
          st.db.crush_rows ++ [CrushRow.mk u none nm sm ph false])) := by
  refine ⟨?_, ?_, ?_⟩
  · intro hmem
    unfold DataStore.add_secret_crush
    dsimp only
    rw [if_pos hmem]
  · intro hnm
    have hfst : (DataStore.add_secret_crush st u (some cid) nm sm ph d).1 = "added" := by
      unfold DataStore.add_secret_crush
      dsimp only
      rw [if_neg hnm]
    have hsc : ((DataStore.add_secret_crush st u (some cid) nm sm ph d).2).secret_crushes =
        dictAdd st.secret_crushes u cid := by
      unfold DataStore.add_secret_crush
      dsimp only
      rw [if_neg hnm]
      dsimp only
      split_ifs <;> rfl
    refine ⟨hfst, ?_, ?_⟩
    · rw [hsc]
      exact mem_dictGet_dictAdd_self _ _ _
    · intro hd hU hC hfwd hrev
      have hcond : (d && dbHasUser st.db u && dbHasUser st.db cid) = true := by
        rw [hd, hU, hC]
        rfl
      have hrows : ((DataStore.add_secret_crush st u (some cid) nm sm ph d).2).db.crush_rows =
          setCrushMutualFirst
            (st.db.crush_rows ++ [CrushRow.mk u (some cid) none none none true]) cid u := by
        unfold DataStore.add_secret_crush
        dsimp only
        rw [if_neg hnm]
        dsimp only
        rw [if_pos hcond, if_neg (by rw [hfwd]; exact Bool.false_ne_true), hrev]
        rw [if_pos rfl]
      have hne : u ≠ cid := crushRowExists_ne hfwd hrev
      constructor
      · refine ⟨CrushRow.mk u (some cid) none none none true, ?_, rfl, rfl, rfl⟩
        rw [hrows]
        apply mem_setCrushMutualFirst_of_not (List.mem_append_right _ (List.mem_singleton.mpr rfl))
        intro hc
        exact hne hc.1
      · obtain ⟨r, hr, h1, h2, h3⟩ := setCrushMutualFirst_marks
          (show crushRowExists
              (st.db.crush_rows ++ [CrushRow.mk u (some cid) none none none true]) cid u = true by
            rw [crushRowExists, List.any_append, Bool.or_eq_true]
            exact Or.inl hrev)
        rw [hrows]
        exact ⟨r, hr, h1, h2, h3⟩
  · intro hname
    have hfst : (DataStore.add_secret_crush st u none nm sm ph d).1 = "added_external" := by
      unfold DataStore.add_secret_crush
      dsimp only
      rw [if_neg hname]
    refine ⟨hfst, ?_⟩
    intro hd hU
    have hcond : (d && dbHasUser st.db u) = true := by
      rw [hd, hU]
      rfl
    unfold DataStore.add_secret_crush
    dsimp only
    rw [if_neg hname]
    dsimp only
    rw [if_pos hcond]

/-- Witness for the amended C8 at concrete inputs: an in-memory duplicate is
rejected, a fresh reciprocated crush is inserted with both mutual flags, and
an external crush is appended verbatim. -/
theorem C8_add_secret_crush_amended_witness :
    DataStore.add_secret_crush stCrush 1 (some 3) none none none true = ("already_added", stCrush) ∧
    (DataStore.add_secret_crush stCrush 1 (some 2) none none none true).1 = "added" ∧
    2 ∈ dictGet ((DataStore.add_secret_crush stCrush 1 (some 2) none none none true).2).secret_crushes 1 ∧
    (∃ r ∈ ((DataStore.add_secret_crush stCrush 1 (some 2) none none none true).2).db.crush_rows,
       r.crusher = 1 ∧ r.crushee = some 2 ∧ r.is_mutual = true) ∧
    (∃ r ∈ ((DataStore.add_secret_crush stCrush 1 (some 2) none none none true).2).db.crush_rows,
       r.crusher = 2 ∧ r.crushee = some 1 ∧ r.is_mutual = true) ∧
    (DataStore.add_secret_crush stCrush 1 none (some "Zed") none none true).1 = "added_external" ∧
    ((DataStore.add_secret_crush stCrush 1 none (some "Zed") none none true).2).db.crush_rows =
      stCrush.db.crush_rows ++ [CrushRow.mk 1 none (some "Zed") none none false] := by
  have h3 := C8_add_secret_crush_amended stCrush 1 3 none none none true
  have h2 := C8_add_secret_crush_amended stCrush 1 2 none none none true
  have hx := (C8_add_secret_crush_amended stCrush 1 2 (some "Zed") none none true).2.2
    (by decide)
  have h2m := h2.2.1 (by decide)
  have h2db := h2m.2.2 rfl (by decide) (by decide) (by decide) (by decide)
  exact ⟨h3.1 (by decide), h2m.1, h2m.2.1, h2db.1, h2db.2, hx.1, hx.2 rfl (by decide)⟩

/-- C9: Durable-write failure is silent.  `save_user_profile` installs the
profile in the in-memory map unconditionally - in particular the in-memory
update is in place whether or not the database block runs - and when the
database write raises (modelled by `dbUp = false`, the whole try block
swallowed) the call still completes with the database untouched and the
in-memory update intact. -/
theorem C9_save_profile_memory_first (st : Store) (uid : Nat) (pd : PData) (d : Bool) :
    alookup ((DataStore.save_user_profile st uid pd d).user_profiles) uid = some pd ∧
    (d = false → (DataStore.save_user_profile st uid pd d).db = st.db) := by
  constructor
  · have hup : (DataStore.save_user_profile st uid pd d).user_profiles =
        assocSet st.user_profiles uid pd := by
      unfold DataStore.save_user_profile
      dsimp only
      split_ifs <;> first | rfl | (split <;> rfl)
    rw [hup]
    exact alookup_assocSet_self _ _ _
  · intro hd
    subst hd
    unfold DataStore.save_user_profile
    dsimp only
    split_ifs <;> first | rfl | simp_all

/-- Witness for C9: saving a profile to the empty store with the database
down still lands in memory and leaves the database untouched. -/
theorem C9_save_profile_memory_first_witness :
    alookup ((DataStore.save_user_profile emptyStore 1 profAlice false).user_profiles) 1 =
      some profAlice ∧
    (DataStore.save_user_profile emptyStore 1 profAlice false).db = emptyStore.db :=
  ⟨(C9_save_profile_memory_first emptyStore 1 profAlice false).1,
   (C9_save_profile_memory_first emptyStore 1 profAlice false).2 rfl⟩
